import Mathlib

/-!
Shallow embedding of the two scripts of the `sdp_script` repository,
`update_ci_cmdb.py` (class `SDPCMDBUpdater`) and
`update_user_to_technician.py` (class `SDPTechnicianUpdater`).

Both scripts wrap a REST API.  The embedding abstracts one HTTP exchange
as an `HttpOutcome`: either a response with a status code and a parsed
JSON object body, or a raised transport exception (connection failure,
invalid JSON body, ...).  Each resource operation of the scripts is
translated in two layers: a `..._body` function for the suite of its
`try:` block, living in the exception monad `PyM` where a transport
failure is a raised exception, and the operation itself, which applies
the `except Exception:` handler of the source and returns the plain
fallback value.  URL strings and request payloads do not influence the
value an operation returns, so operations are functions of the backend's
`HttpOutcome`; request formation itself (session headers, auth mode) is
modelled separately by `Session`/`Request`.  The sequence of HTTP calls
a (bulk) workflow performs is recorded as a `List SdpCall` so that
claims about which network calls are attempted can be stated.
-/

namespace SdpScript

/-- A parsed JSON value: the result of `response.json()` and the values
appearing in configuration dictionaries. -/
inductive JVal where
  | null
  | bool (b : Bool)
  | num (n : Int)
  | str (s : String)
  | arr (elems : List JVal)
  | obj (fields : List (String × JVal))

/-- Python `fields.get(key)` on a JSON object: the first binding of
`key`, or `none` when the key is absent (Python returns `None`). -/
def jlookup : List (String × JVal) → String → Option JVal
  | [], _ => none
  | (k, v) :: rest, key => if k = key then some v else jlookup rest key

/-- Python `fields.get(key, dflt)` on a JSON object. -/
def jlookupD (fields : List (String × JVal)) (key : String) (dflt : JVal) : JVal :=
  (jlookup fields key).getD dflt

/-- Python truthiness of a JSON value: `None`, `False`, `0`, `""`, `[]`
and `{}` are falsy. -/
def jTruthy : JVal → Bool
  | .null => false
  | .bool b => b
  | .num n => !(n == 0)
  | .str s => !(s == "")
  | .arr es => !es.isEmpty
  | .obj fs => !fs.isEmpty

/-- Python truthiness of a JSON value that may be `None`. -/
def optTruthy : Option JVal → Bool
  | none => false
  | some v => jTruthy v

/-- Python truthiness of a string: only `""` is falsy. -/
def truthyStr (s : String) : Bool := !(s == "")

/-- Python truthiness of an optional string: `None` and `""` are falsy. -/
def truthyOptStr : Option String → Bool
  | none => false
  | some s => truthyStr s

/-- The outcome of one HTTP exchange as seen by the calling code: a
response with its status code and parsed JSON object body, or a raised
transport exception. -/
inductive HttpOutcome where
  | response (status : Nat) (body : List (String × JVal))
  | exception (msg : String)

/-- A Python computation that may raise an exception. -/
abbrev PyM (α : Type) := Except String α

/-- `try: ... except Exception: return fallback` around a computation:
a raised exception is logged and converted into the fallback value. -/
def pyHandle (x : PyM α) (fallback : α) : α :=
  match x with
  | .ok v => v
  | .error _ => fallback

/-- The HTTP calls the two scripts can issue, recorded so that
statements about which network requests are attempted can be made. -/
inductive SdpCall where
  | putCI
  | convertUser
  | assignSites
  | assignGroups
  | assignRoles
  deriving DecidableEq

/-- The aggregate `{'successful': ..., 'failed': ...}` dictionary
returned by both bulk runners. -/
structure BulkResults where
  successful : Nat
  failed : Nat
  deriving DecidableEq

/-- `base_url.rstrip('/')`: remove all trailing slashes. -/
def rstripSlash (s : String) : String :=
  String.mk (s.data.reverse.dropWhile (fun c => c == '/')).reverse

/-- The `requests.Session` state set up by `__init__` of either class:
the default headers applied to every request and the optional
Basic-auth credential pair. -/
structure Session where
  base_url : String
  headers : List (String × String)
  auth : Option (String × String)

/-- `__init__(base_url, username, password, technician_key=None)` of
both classes: when a (truthy) technician key is given, the session
carries the `TECHNICIAN_KEY` header and no Basic-auth credentials;
otherwise `session.auth` is set to the username/password pair and no
`TECHNICIAN_KEY` header is added. -/
def initSession (base_url username password : String)
    (technician_key : Option String) : Session :=
  if truthyOptStr technician_key then
    { base_url := rstripSlash base_url
      headers := [("TECHNICIAN_KEY", technician_key.getD ""),
                  ("Content-Type", "application/json")]
      auth := none }
  else
    { base_url := rstripSlash base_url
      headers := [("Content-Type", "application/json")]
      auth := some (username, password) }

/-- An outgoing HTTP request issued through the session: the `requests`
library applies the session's default headers and auth to every
request made through it. -/
structure Request where
  method : String
  url : String
  headers : List (String × String)
  auth : Option (String × String)

/-- One request issued via `self.session.get/put/post`. -/
def sessionRequest (s : Session) (method url : String) : Request :=
  { method := method, url := url, headers := s.headers, auth := s.auth }

namespace SDPCMDBUpdater

/-- `try:` suite of `get_ci_details`: issue the GET (a transport failure
raises); on 200 return `data.get('ci', data)`, on 404 return `None`
(warning logged), otherwise log the error and return `None`. -/
def get_ci_details_body (o : HttpOutcome) : PyM (Option JVal) :=
  match o with
  | .exception msg => .error msg
  | .response status data =>
    if status = 200 then .ok (some (jlookupD data "ci" (JVal.obj data)))
    else if status = 404 then .ok none
    else .ok none

/-- `get_ci_details` with its `except Exception:` handler applied:
any raised exception is logged and converted to `None`. -/
def get_ci_details (o : HttpOutcome) : Option JVal :=
  pyHandle (get_ci_details_body o) none

/-- `try:` suite of `update_ci_fields`: issue the PUT with the
`{"ci": updates}` envelope; return `True` iff the status is 200 or
201, `False` otherwise. -/
def update_ci_fields_body (o : HttpOutcome) : PyM Bool :=
  match o with
  | .exception msg => .error msg
  | .response status _ =>
    if status = 200 ∨ status = 201 then .ok true else .ok false

/-- `update_ci_fields` with its handler: an exception yields `False`. -/
def update_ci_fields (o : HttpOutcome) : Bool :=
  pyHandle (update_ci_fields_body o) false

/-- `try:` suite of `search_ci`: on 200 return `data.get('cis', [])`,
otherwise return `[]`. -/
def search_ci_body (o : HttpOutcome) : PyM JVal :=
  match o with
  | .exception msg => .error msg
  | .response status data =>
    if status = 200 then .ok (jlookupD data "cis" (JVal.arr []))
    else .ok (JVal.arr [])

/-- `search_ci` with its handler: an exception yields `[]`. -/
def search_ci (o : HttpOutcome) : JVal :=
  pyHandle (search_ci_body o) (JVal.arr [])

/-- One entry of the `ci_updates` list, read with `item.get('ci_id')`
and `item.get('updates')` (absent keys give `None`). -/
structure CIUpdateItem where
  ci_id : Option String := none
  updates : Option JVal := none

/-- The body of one iteration of the `bulk_update_ci_fields` loop:
`if not ci_id or not updates:` count the item failed without issuing
any request, otherwise issue the PUT and use its boolean result.  The
second component records the HTTP calls performed for this item. -/
def ci_update_step (it : CIUpdateItem) (o : HttpOutcome) : Bool × List SdpCall :=
  if truthyOptStr it.ci_id = false ∨ optTruthy it.updates = false then
    (false, [])
  else
    (update_ci_fields o, [SdpCall.putCI])

/-- Accumulator update of the `bulk_update_ci_fields` loop. -/
def ci_bulk_step (results : BulkResults) (p : CIUpdateItem × HttpOutcome) : BulkResults :=
  if (ci_update_step p.1 p.2).1 then
    { results with successful := results.successful + 1 }
  else
    { results with failed := results.failed + 1 }

/-- `bulk_update_ci_fields`: fold the loop body over the input list in
order, starting from `{'successful': 0, 'failed': 0}`.  Each item is
paired with the backend's outcome for the PUT it would issue. -/
def bulk_update_ci_fields (ci_updates : List (CIUpdateItem × HttpOutcome)) : BulkResults :=
  ci_updates.foldl ci_bulk_step { successful := 0, failed := 0 }

end SDPCMDBUpdater

namespace SDPTechnicianUpdater

/-- `try:` suite of `get_user_details`: on 200 return
`data.get('user', data)`, on 404 return `None`, otherwise log and
return `None`; a transport failure raises. -/
def get_user_details_body (o : HttpOutcome) : PyM (Option JVal) :=
  match o with
  | .exception msg => .error msg
  | .response status data =>
    if status = 200 then .ok (some (jlookupD data "user" (JVal.obj data)))
    else if status = 404 then .ok none
    else .ok none

/-- `get_user_details` with its handler: exceptions yield `None`. -/
def get_user_details (o : HttpOutcome) : Option JVal :=
  pyHandle (get_user_details_body o) none

/-- `try:` suite of `get_technician_details`: on 200 return
`data.get('technician', data)`, on 404 return `None`, otherwise log
and return `None`; a transport failure raises. -/
def get_technician_details_body (o : HttpOutcome) : PyM (Option JVal) :=
  match o with
  | .exception msg => .error msg
  | .response status data =>
    if status = 200 then .ok (some (jlookupD data "technician" (JVal.obj data)))
    else if status = 404 then .ok none
    else .ok none

/-- `get_technician_details` with its handler. -/
def get_technician_details (o : HttpOutcome) : Option JVal :=
  pyHandle (get_technician_details_body o) none

/-- `try:` suite of `convert_user_to_technician`: issue the POST; on
200/201 return `data.get('technician', {}).get('id')` — calling
`.get('id')` on a non-dict value raises an `AttributeError` — and on
any other status log and return `None`. -/
def convert_user_to_technician_body (o : HttpOutcome) : PyM (Option JVal) :=
  match o with
  | .exception msg => .error msg
  | .response status data =>
    if status = 200 ∨ status = 201 then
      match jlookupD data "technician" (JVal.obj []) with
      | .obj fields => .ok (jlookup fields "id")
      | _ => .error "AttributeError"
    else .ok none

/-- `convert_user_to_technician` with its handler: exceptions yield
`None`; the returned technician id may also be `None` on a 200/201
response whose body carries no `technician.id`. -/
def convert_user_to_technician (o : HttpOutcome) : Option JVal :=
  pyHandle (convert_user_to_technician_body o) none

/-- `try:` suite of `update_technician`: issue the PUT with the
`{"technician": updates}` envelope; `True` iff status 200/201. -/
def update_technician_body (o : HttpOutcome) : PyM Bool :=
  match o with
  | .exception msg => .error msg
  | .response status _ =>
    if status = 200 ∨ status = 201 then .ok true else .ok false

/-- `update_technician` with its handler.  The source's `except` branch
executes `return None` — not `return False` as its docstring and
`-> bool` annotation state — so the result is `Option Bool`: `some b`
for the boolean returns of the `try:` suite and `none` for the `None`
returned on an exception. -/
def update_technician (o : HttpOutcome) : Option Bool :=
  match update_technician_body o with
  | .ok b => some b
  | .error _ => none

/-- `try:` suite of `assign_technician_to_sites`: issue the POST with
`{"site_ids": [...]}`; `True` iff status 200/201. -/
def assign_technician_to_sites_body (o : HttpOutcome) : PyM Bool :=
  match o with
  | .exception msg => .error msg
  | .response status _ =>
    if status = 200 ∨ status = 201 then .ok true else .ok false

/-- `assign_technician_to_sites` with its handler. -/
def assign_technician_to_sites (o : HttpOutcome) : Bool :=
  pyHandle (assign_technician_to_sites_body o) false

/-- `try:` suite of `assign_technician_to_groups`: issue the POST with
`{"group_ids": [...]}`; `True` iff status 200/201. -/
def assign_technician_to_groups_body (o : HttpOutcome) : PyM Bool :=
  match o with
  | .exception msg => .error msg
  | .response status _ =>
    if status = 200 ∨ status = 201 then .ok true else .ok false

/-- `assign_technician_to_groups` with its handler. -/
def assign_technician_to_groups (o : HttpOutcome) : Bool :=
  pyHandle (assign_technician_to_groups_body o) false

/-- `try:` suite of `assign_technician_roles`: issue the POST with
`{"role_ids": [...]}`; `True` iff status 200/201. -/
def assign_technician_roles_body (o : HttpOutcome) : PyM Bool :=
  match o with
  | .exception msg => .error msg
  | .response status _ =>
    if status = 200 ∨ status = 201 then .ok true else .ok false

/-- `assign_technician_roles` with its handler. -/
def assign_technician_roles (o : HttpOutcome) : Bool :=
  pyHandle (assign_technician_roles_body o) false

/-- `try:` suite of `get_sites`: on 200 return `data.get('sites', [])`,
otherwise `[]`. -/
def get_sites_body (o : HttpOutcome) : PyM JVal :=
  match o with
  | .exception msg => .error msg
  | .response status data =>
    if status = 200 then .ok (jlookupD data "sites" (JVal.arr []))
    else .ok (JVal.arr [])

/-- `get_sites` with its handler. -/
def get_sites (o : HttpOutcome) : JVal :=
  pyHandle (get_sites_body o) (JVal.arr [])

/-- `try:` suite of `get_groups`: on 200 return `data.get('groups', [])`,
otherwise `[]`. -/
def get_groups_body (o : HttpOutcome) : PyM JVal :=
  match o with
  | .exception msg => .error msg
  | .response status data =>
    if status = 200 then .ok (jlookupD data "groups" (JVal.arr []))
    else .ok (JVal.arr [])

/-- `get_groups` with its handler. -/
def get_groups (o : HttpOutcome) : JVal :=
  pyHandle (get_groups_body o) (JVal.arr [])

/-- `try:` suite of `get_roles`: on 200 return `data.get('roles', [])`,
otherwise `[]`. -/
def get_roles_body (o : HttpOutcome) : PyM JVal :=
  match o with
  | .exception msg => .error msg
  | .response status data =>
    if status = 200 then .ok (jlookupD data "roles" (JVal.arr []))
    else .ok (JVal.arr [])

/-- `get_roles` with its handler. -/
def get_roles (o : HttpOutcome) : JVal :=
  pyHandle (get_roles_body o) (JVal.arr [])

/-- `try:` suite of `search_users`: on 200 return
`data.get('users', [])`, otherwise `[]`. -/
def search_users_body (o : HttpOutcome) : PyM JVal :=
  match o with
  | .exception msg => .error msg
  | .response status data =>
    if status = 200 then .ok (jlookupD data "users" (JVal.arr []))
    else .ok (JVal.arr [])

/-- `search_users` with its handler. -/
def search_users (o : HttpOutcome) : JVal :=
  pyHandle (search_users_body o) (JVal.arr [])

/-- One entry of the `user_conversions` list, read with
`user_config.get(...)`: `user_id` has no default, `technician_data`
defaults to `{}`, the three id lists default to `[]`. -/
structure UserConfig where
  user_id : Option String := none
  technician_data : Option JVal := none
  site_ids : Option (List String) := none
  group_ids : Option (List String) := none
  role_ids : Option (List String) := none

/-- The backend's behavior for the (at most four) HTTP calls one
conversion item can issue. -/
structure ItemBackend where
  convert : HttpOutcome
  sites : HttpOutcome
  groups : HttpOutcome
  roles : HttpOutcome

/-- `process_user_to_technician(user_config)`.  Missing `user_id`
fails without any call.  Step 1 converts the user: a falsy technician
id returns `False` with no assignment attempted.  Steps 2-4 run `if
ids and not self.assign_...(technician_id, ids)` in sequence: each
executes its call only when its id list is non-empty, and a failing
call clears `success` without stopping the later steps — so `success`
is the conjunction of one `isEmpty || assign` conjunct per step, and
the call list records the convert call followed by the assignment
calls of the non-empty lists, in source order. -/
def process_user_to_technician (be : ItemBackend) (cfg : UserConfig) :
    Bool × List SdpCall :=
  let site_ids := cfg.site_ids.getD []
  let group_ids := cfg.group_ids.getD []
  let role_ids := cfg.role_ids.getD []
  if truthyOptStr cfg.user_id = false then
    (false, [])
  else
    let technician_id := convert_user_to_technician be.convert
    if optTruthy technician_id = false then
      (false, [SdpCall.convertUser])
    else
      let success :=
        (site_ids.isEmpty || assign_technician_to_sites be.sites)
          && (group_ids.isEmpty || assign_technician_to_groups be.groups)
          && (role_ids.isEmpty || assign_technician_roles be.roles)
      let calls :=
        SdpCall.convertUser ::
          ((if site_ids.isEmpty then [] else [SdpCall.assignSites])
            ++ (if group_ids.isEmpty then [] else [SdpCall.assignGroups])
            ++ (if role_ids.isEmpty then [] else [SdpCall.assignRoles]))
      (success, calls)

/-- Accumulator update of the `bulk_process_users_to_technicians` loop. -/
def tech_bulk_step (results : BulkResults) (p : UserConfig × ItemBackend) : BulkResults :=
  if (process_user_to_technician p.2 p.1).1 then
    { results with successful := results.successful + 1 }
  else
    { results with failed := results.failed + 1 }

/-- `bulk_process_users_to_technicians`: fold the loop body over the
input list in order, starting from `{'successful': 0, 'failed': 0}`.
Each configuration is paired with the backend's behavior for it. -/
def bulk_process_users_to_technicians
    (user_configs : List (UserConfig × ItemBackend)) : BulkResults :=
  user_configs.foldl tech_bulk_step { successful := 0, failed := 0 }

/-- The calls `process_user_to_technician` performs once the convert
step has yielded a truthy technician id: the convert call followed by
one assignment call per non-empty id list, in source order. -/
def itemCalls (cfg : UserConfig) : List SdpCall :=
  SdpCall.convertUser ::
    ((if (cfg.site_ids.getD []).isEmpty then [] else [SdpCall.assignSites])
      ++ (if (cfg.group_ids.getD []).isEmpty then [] else [SdpCall.assignGroups])
      ++ (if (cfg.role_ids.getD []).isEmpty then [] else [SdpCall.assignRoles]))

/-- The overall result of steps 2-4: each step passes when its id list
is empty (skipped) or its assignment call succeeds. -/
def itemStepsOk (be : ItemBackend) (cfg : UserConfig) : Bool :=
  ((cfg.site_ids.getD []).isEmpty || assign_technician_to_sites be.sites)
    && ((cfg.group_ids.getD []).isEmpty || assign_technician_to_groups be.groups)
    && ((cfg.role_ids.getD []).isEmpty || assign_technician_roles be.roles)

end SDPTechnicianUpdater

/-! ### Helper lemmas about the bulk tally loops -/

/-- Closed form of the tally loop shared by both bulk runners: starting
from accumulator `r`, the fold adds one `successful` per item the
per-item operation accepts and one `failed` per item it rejects. -/
theorem foldl_tally {α : Type} (f : α → Bool) :
    ∀ (items : List α) (r : BulkResults),
      items.foldl
          (fun acc x =>
            if f x then { acc with successful := acc.successful + 1 }
            else { acc with failed := acc.failed + 1 }) r
        = { successful := r.successful + items.countP f
            failed := r.failed + items.countP (fun x => !(f x)) }
  | [], r => by simp
  | x :: items, r => by
    rw [List.foldl_cons, foldl_tally f items]
    cases h : f x <;> simp [h, List.countP_cons, BulkResults.mk.injEq] <;> omega

/-- `bulk_update_ci_fields` in closed form. -/
theorem bulk_update_ci_fields_closed (items : List (SDPCMDBUpdater.CIUpdateItem × HttpOutcome)) :
    SDPCMDBUpdater.bulk_update_ci_fields items
      = { successful := items.countP fun p => (SDPCMDBUpdater.ci_update_step p.1 p.2).1
          failed := items.countP fun p => !((SDPCMDBUpdater.ci_update_step p.1 p.2).1) } := by
  have h := foldl_tally
    (fun p : SDPCMDBUpdater.CIUpdateItem × HttpOutcome => (SDPCMDBUpdater.ci_update_step p.1 p.2).1)
    items { successful := 0, failed := 0 }
  simpa using h

/-- `bulk_process_users_to_technicians` in closed form. -/
theorem bulk_process_closed (items : List (SDPTechnicianUpdater.UserConfig × SDPTechnicianUpdater.ItemBackend)) :
    SDPTechnicianUpdater.bulk_process_users_to_technicians items
      = { successful := items.countP fun p => (SDPTechnicianUpdater.process_user_to_technician p.2 p.1).1
          failed := items.countP fun p => !((SDPTechnicianUpdater.process_user_to_technician p.2 p.1).1) } := by
  have h := foldl_tally
    (fun p : SDPTechnicianUpdater.UserConfig × SDPTechnicianUpdater.ItemBackend =>
      (SDPTechnicianUpdater.process_user_to_technician p.2 p.1).1)
    items { successful := 0, failed := 0 }
  simpa using h

/-- Counting the items a boolean test accepts and those it rejects
partitions the list. -/
theorem countP_add_countP_not {α : Type} (f : α → Bool) :
    ∀ items : List α, items.countP f + items.countP (fun x => !(f x)) = items.length
  | [] => by simp
  | x :: items => by
    rw [List.countP_cons, List.countP_cons]
    have h := countP_add_countP_not f items
    cases hx : f x <;> simp [hx] <;> omega

/-! ### Claim theorems -/

/-- C1 (code bug): the spec says every update operation returns the
boolean `false` on a transport exception, and `update_ci_fields` does;
but `update_technician`'s `except` branch executes `return None`, so on
a transport exception it returns `None` — not the boolean `False` its
own docstring and `-> bool` annotation promise. -/
theorem claim_C1_update_exception_results :
    SDPCMDBUpdater.update_ci_fields (HttpOutcome.exception "connection reset") = false
    ∧ SDPTechnicianUpdater.update_technician (HttpOutcome.exception "connection reset") = none
    ∧ SDPTechnicianUpdater.update_technician (HttpOutcome.exception "connection reset")
        ≠ some false := by
  refine ⟨rfl, rfl, ?_⟩
  intro h
  cases h

/-- C3: for every input list — the empty one included — each bulk
runner returns counts with `successful + failed` equal to the number of
input items, and the empty list yields `{successful := 0, failed := 0}`. -/
theorem claim_C3_bulk_count_invariant :
    (∀ items, (SDPCMDBUpdater.bulk_update_ci_fields items).successful
        + (SDPCMDBUpdater.bulk_update_ci_fields items).failed = items.length)
    ∧ (∀ items, (SDPTechnicianUpdater.bulk_process_users_to_technicians items).successful
        + (SDPTechnicianUpdater.bulk_process_users_to_technicians items).failed = items.length)
    ∧ SDPCMDBUpdater.bulk_update_ci_fields [] = { successful := 0, failed := 0 }
    ∧ SDPTechnicianUpdater.bulk_process_users_to_technicians []
        = { successful := 0, failed := 0 } := by
  refine ⟨?_, ?_, rfl, rfl⟩
  · intro items
    rw [bulk_update_ci_fields_closed]
    exact countP_add_countP_not _ items
  · intro items
    rw [bulk_process_closed]
    exact countP_add_countP_not _ items

/-- C8: each bulk runner processes the whole input in input order and
never short-circuits: its counts are exactly the per-item outcomes of
the loop body accumulated over the entire list, and the counts of a
concatenation are the sums of the counts of the parts — so the failure
of any earlier item never prevents the processing of later items. -/
theorem claim_C8_no_fail_fast :
    ∀ (xs ys : List (SDPCMDBUpdater.CIUpdateItem × HttpOutcome))
      (us vs : List (SDPTechnicianUpdater.UserConfig × SDPTechnicianUpdater.ItemBackend)),
      SDPCMDBUpdater.bulk_update_ci_fields xs
        = { successful := xs.countP fun p => (SDPCMDBUpdater.ci_update_step p.1 p.2).1
            failed := xs.countP fun p => !((SDPCMDBUpdater.ci_update_step p.1 p.2).1) }
      ∧ (SDPCMDBUpdater.bulk_update_ci_fields (xs ++ ys)).successful
          = (SDPCMDBUpdater.bulk_update_ci_fields xs).successful
            + (SDPCMDBUpdater.bulk_update_ci_fields ys).successful
      ∧ (SDPCMDBUpdater.bulk_update_ci_fields (xs ++ ys)).failed
          = (SDPCMDBUpdater.bulk_update_ci_fields xs).failed
            + (SDPCMDBUpdater.bulk_update_ci_fields ys).failed
      ∧ SDPTechnicianUpdater.bulk_process_users_to_technicians us
          = { successful := us.countP fun p => (SDPTechnicianUpdater.process_user_to_technician p.2 p.1).1
              failed := us.countP fun p => !((SDPTechnicianUpdater.process_user_to_technician p.2 p.1).1) }
      ∧ (SDPTechnicianUpdater.bulk_process_users_to_technicians (us ++ vs)).successful
          = (SDPTechnicianUpdater.bulk_process_users_to_technicians us).successful
            + (SDPTechnicianUpdater.bulk_process_users_to_technicians vs).successful
      ∧ (SDPTechnicianUpdater.bulk_process_users_to_technicians (us ++ vs)).failed
          = (SDPTechnicianUpdater.bulk_process_users_to_technicians us).failed
            + (SDPTechnicianUpdater.bulk_process_users_to_technicians vs).failed := by
  intro xs ys us vs
  refine ⟨bulk_update_ci_fields_closed xs, ?_, ?_, bulk_process_closed us, ?_, ?_⟩ <;>
    simp [bulk_update_ci_fields_closed, bulk_process_closed, List.countP_append]

open SDPCMDBUpdater SDPTechnicianUpdater

/-- Once `user_id` is truthy and the convert step yielded a truthy
technician id, `process_user_to_technician` returns exactly the
conjunction of the three optional-step results together with the call
list of the attempted calls. -/
theorem process_after_convert (cfg : UserConfig) :
    ∀ be : ItemBackend,
      truthyOptStr cfg.user_id = true →
      optTruthy (convert_user_to_technician be.convert) = true →
      process_user_to_technician be cfg = (itemStepsOk be cfg, itemCalls cfg) := by
  intro be h1 h2
  simp [process_user_to_technician, itemStepsOk, itemCalls, h1, h2]

/-- C2: with a valid `user_id`, a convert step that yields no technician
id fails the item with no assignment call attempted; a convert step
that succeeds is followed by all three optional assignment steps — a
failing step never prevents the remaining ones — and the item's result
is the conjunction of the attempted steps' results, hence failed
overall as soon as one of them fails. -/
theorem claim_C2_conversion_workflow :
    ∀ (cfg : UserConfig) (beFail beOk : ItemBackend),
      truthyOptStr cfg.user_id = true →
      optTruthy (convert_user_to_technician beFail.convert) = false →
      optTruthy (convert_user_to_technician beOk.convert) = true →
      process_user_to_technician beFail cfg = (false, [SdpCall.convertUser])
      ∧ process_user_to_technician beOk cfg = (itemStepsOk beOk cfg, itemCalls cfg)
      ∧ (itemStepsOk beOk cfg = false →
          (process_user_to_technician beOk cfg).1 = false) := by
  intro cfg beFail beOk h1 h2 h3
  have e2 := process_after_convert cfg beOk h1 h3
  refine ⟨?_, e2, ?_⟩
  · simp [process_user_to_technician, h1, h2]
  · intro h4
    rw [e2]
    exact h4

/-- Fixture for the C2 witness: the spec's example scenario, with
`site_ids = ["S1"]`, `group_ids = []`, `role_ids = ["R1"]`. -/
def c2cfg : UserConfig :=
  { user_id := some "USER001"
    technician_data := some (JVal.obj [("department", JVal.str "IT Support")])
    site_ids := some ["S1"]
    group_ids := some []
    role_ids := some ["R1"] }

/-- Fixture for the C2 witness: the convert POST raises. -/
def c2beFail : ItemBackend :=
  { convert := HttpOutcome.exception "connection refused"
    sites := HttpOutcome.response 200 []
    groups := HttpOutcome.response 200 []
    roles := HttpOutcome.response 200 [] }

/-- Fixture for the C2 witness: convert succeeds, site assignment fails
with a 500, role assignment succeeds. -/
def c2beOk : ItemBackend :=
  { convert := HttpOutcome.response 201 [("technician", JVal.obj [("id", JVal.str "T1")])]
    sites := HttpOutcome.response 500 []
    groups := HttpOutcome.response 200 []
    roles := HttpOutcome.response 201 [] }

/-- Witness for C2 at the fixture inputs. -/
theorem claim_C2_witness :
    truthyOptStr c2cfg.user_id = true
    ∧ optTruthy (convert_user_to_technician c2beFail.convert) = false
    ∧ optTruthy (convert_user_to_technician c2beOk.convert) = true
    ∧ (process_user_to_technician c2beFail c2cfg = (false, [SdpCall.convertUser])
      ∧ process_user_to_technician c2beOk c2cfg = (itemStepsOk c2beOk c2cfg, itemCalls c2cfg)
      ∧ (itemStepsOk c2beOk c2cfg = false →
          (process_user_to_technician c2beOk c2cfg).1 = false)) :=
  ⟨by decide, by decide, by decide,
    claim_C2_conversion_workflow c2cfg c2beFail c2beOk (by decide) (by decide) (by decide)⟩

/-- C9: once the convert step has yielded a truthy technician id, each
assignment call is attempted iff its id list is non-empty, and
replacing the backend's answer to a skipped step changes nothing in the
item's outcome. -/
theorem claim_C9_optional_assignment_steps :
    ∀ (cfg : UserConfig) (be : ItemBackend) (o : HttpOutcome),
      truthyOptStr cfg.user_id = true →
      optTruthy (convert_user_to_technician be.convert) = true →
      (SdpCall.assignSites ∈ (process_user_to_technician be cfg).2
          ↔ (cfg.site_ids.getD []).isEmpty = false)
      ∧ (SdpCall.assignGroups ∈ (process_user_to_technician be cfg).2
          ↔ (cfg.group_ids.getD []).isEmpty = false)
      ∧ (SdpCall.assignRoles ∈ (process_user_to_technician be cfg).2
          ↔ (cfg.role_ids.getD []).isEmpty = false)
      ∧ ((cfg.site_ids.getD []).isEmpty = true →
          process_user_to_technician { be with sites := o } cfg
            = process_user_to_technician be cfg)
      ∧ ((cfg.group_ids.getD []).isEmpty = true →
          process_user_to_technician { be with groups := o } cfg
            = process_user_to_technician be cfg)
      ∧ ((cfg.role_ids.getD []).isEmpty = true →
          process_user_to_technician { be with roles := o } cfg
            = process_user_to_technician be cfg) := by
  intro cfg be o h1 h2
  have key := process_after_convert cfg
  refine ⟨?_, ?_, ?_, ?_, ?_, ?_⟩
  · rw [key be h1 h2]
    cases hs : (cfg.site_ids.getD []).isEmpty <;>
      cases hg : (cfg.group_ids.getD []).isEmpty <;>
        cases hr : (cfg.role_ids.getD []).isEmpty <;>
          simp [itemCalls, hs, hg, hr]
  · rw [key be h1 h2]
    cases hs : (cfg.site_ids.getD []).isEmpty <;>
      cases hg : (cfg.group_ids.getD []).isEmpty <;>
        cases hr : (cfg.role_ids.getD []).isEmpty <;>
          simp [itemCalls, hs, hg, hr]
  · rw [key be h1 h2]
    cases hs : (cfg.site_ids.getD []).isEmpty <;>
      cases hg : (cfg.group_ids.getD []).isEmpty <;>
        cases hr : (cfg.role_ids.getD []).isEmpty <;>
          simp [itemCalls, hs, hg, hr]
  · intro hs
    rw [key be h1 h2, key { be with sites := o } h1 h2]
    simp [itemStepsOk, hs]
  · intro hg
    rw [key be h1 h2, key { be with groups := o } h1 h2]
    simp [itemStepsOk, hg]
  · intro hr
    rw [key be h1 h2, key { be with roles := o } h1 h2]
    simp [itemStepsOk, hr]

/-- Fixture for the C9 witness: empty `site_ids`, non-empty group and
role lists. -/
def c9cfg : UserConfig :=
  { user_id := some "USER002"
    site_ids := some []
    group_ids := some ["G1"]
    role_ids := some ["R1"] }

/-- Fixture for the C9 witness: convert succeeds, groups fail, roles
succeed. -/
def c9be : ItemBackend :=
  { convert := HttpOutcome.response 200 [("technician", JVal.obj [("id", JVal.str "T9")])]
    sites := HttpOutcome.response 200 []
    groups := HttpOutcome.response 403 []
    roles := HttpOutcome.response 200 [] }

/-- Witness for C9 at the fixture inputs. -/
theorem claim_C9_witness :
    truthyOptStr c9cfg.user_id = true
    ∧ optTruthy (convert_user_to_technician c9be.convert) = true
    ∧ ((SdpCall.assignSites ∈ (process_user_to_technician c9be c9cfg).2
        ↔ (c9cfg.site_ids.getD []).isEmpty = false)
      ∧ (SdpCall.assignGroups ∈ (process_user_to_technician c9be c9cfg).2
        ↔ (c9cfg.group_ids.getD []).isEmpty = false)
      ∧ (SdpCall.assignRoles ∈ (process_user_to_technician c9be c9cfg).2
        ↔ (c9cfg.role_ids.getD []).isEmpty = false)
      ∧ ((c9cfg.site_ids.getD []).isEmpty = true →
          process_user_to_technician { c9be with sites := HttpOutcome.exception "dead" } c9cfg
            = process_user_to_technician c9be c9cfg)
      ∧ ((c9cfg.group_ids.getD []).isEmpty = true →
          process_user_to_technician { c9be with groups := HttpOutcome.exception "dead" } c9cfg
            = process_user_to_technician c9be c9cfg)
      ∧ ((c9cfg.role_ids.getD []).isEmpty = true →
          process_user_to_technician { c9be with roles := HttpOutcome.exception "dead" } c9cfg
            = process_user_to_technician c9be c9cfg)) :=
  ⟨by decide, by decide,
    claim_C9_optional_assignment_steps c9cfg c9be (HttpOutcome.exception "dead")
      (by decide) (by decide)⟩

/-- C10: the conversion runner performs no local validation of the
technician payload: whenever `user_id` is truthy the convert call is
attempted, and the behavior of the item is unchanged by replacing
`technician_data` with anything (including the missing value, which
defaults to the empty mapping); only a missing or empty `user_id` fails
an item without any network call. -/
theorem claim_C10_convert_without_payload_validation :
    ∀ (cfgGood cfgBad : UserConfig) (be : ItemBackend) (td : Option JVal),
      truthyOptStr cfgGood.user_id = true →
      truthyOptStr cfgBad.user_id = false →
      SdpCall.convertUser ∈ (process_user_to_technician be cfgGood).2
      ∧ process_user_to_technician be { cfgGood with technician_data := td }
          = process_user_to_technician be cfgGood
      ∧ process_user_to_technician be cfgBad = (false, []) := by
  intro cfgGood cfgBad be td h1 h2
  refine ⟨?_, rfl, ?_⟩
  · cases hc : optTruthy (convert_user_to_technician be.convert) <;>
      simp [process_user_to_technician, h1, hc]
  · simp [process_user_to_technician, h2]

/-- Fixture for the C10 witness: a valid `user_id` with no
`technician_data` at all. -/
def c10cfgGood : UserConfig := { user_id := some "USER003" }

/-- Fixture for the C10 witness: an item whose `user_id` is missing. -/
def c10cfgBad : UserConfig :=
  { technician_data := some (JVal.obj [("department", JVal.str "HR")]) }

/-- Fixture for the C10 witness. -/
def c10be : ItemBackend :=
  { convert := HttpOutcome.response 200 [("technician", JVal.obj [("id", JVal.str "T10")])]
    sites := HttpOutcome.response 200 []
    groups := HttpOutcome.response 200 []
    roles := HttpOutcome.response 200 [] }

/-- Witness for C10 at the fixture inputs. -/
theorem claim_C10_witness :
    truthyOptStr c10cfgGood.user_id = true
    ∧ truthyOptStr c10cfgBad.user_id = false
    ∧ (SdpCall.convertUser ∈ (process_user_to_technician c10be c10cfgGood).2
      ∧ process_user_to_technician c10be { c10cfgGood with technician_data := none }
          = process_user_to_technician c10be c10cfgGood
      ∧ process_user_to_technician c10be c10cfgBad = (false, [])) :=
  ⟨by decide, by decide,
    claim_C10_convert_without_payload_validation c10cfgGood c10cfgBad c10be none
      (by decide) (by decide)⟩

/-- C4: each get operation returns, on 200, the body's nested object
under its resource-type key with the whole body as fallback when the
key is absent; `None` on 404; and `None` on any other status or on a
transport exception — outwardly identical to the 404 case. -/
theorem claim_C4_get_semantics :
    ∀ (st : Nat) (body bodyNo : List (String × JVal)) (msg : String),
      st ≠ 200 →
      jlookup bodyNo "ci" = none →
      jlookup bodyNo "user" = none →
      jlookup bodyNo "technician" = none →
      get_ci_details (.response 200 body) = some (jlookupD body "ci" (JVal.obj body))
      ∧ get_user_details (.response 200 body) = some (jlookupD body "user" (JVal.obj body))
      ∧ get_technician_details (.response 200 body)
          = some (jlookupD body "technician" (JVal.obj body))
      ∧ get_ci_details (.response 200 bodyNo) = some (JVal.obj bodyNo)
      ∧ get_user_details (.response 200 bodyNo) = some (JVal.obj bodyNo)
      ∧ get_technician_details (.response 200 bodyNo) = some (JVal.obj bodyNo)
      ∧ get_ci_details (.response 404 body) = none
      ∧ get_user_details (.response 404 body) = none
      ∧ get_technician_details (.response 404 body) = none
      ∧ get_ci_details (.response st body) = none
      ∧ get_user_details (.response st body) = none
      ∧ get_technician_details (.response st body) = none
      ∧ get_ci_details (.exception msg) = none
      ∧ get_user_details (.exception msg) = none
      ∧ get_technician_details (.exception msg) = none
      ∧ get_ci_details (.response st body) = get_ci_details (.response 404 body)
      ∧ get_ci_details (.exception msg) = get_ci_details (.response 404 body) := by
  intro st body bodyNo msg hst hci huser htech
  refine ⟨rfl, rfl, rfl, ?_, ?_, ?_, rfl, rfl, rfl, ?_, ?_, ?_, rfl, rfl, rfl, ?_, rfl⟩ <;>
    simp [get_ci_details, get_user_details, get_technician_details,
      get_ci_details_body, get_user_details_body, get_technician_details_body,
      jlookupD, pyHandle, hst, hci, huser, htech]

/-- Witness for C4: a 503 response, a body carrying the resource keys
and a body carrying none of them. -/
theorem claim_C4_witness :
    (503 : Nat) ≠ 200
    ∧ jlookup [("message", JVal.str "hello")] "ci" = none
    ∧ jlookup [("message", JVal.str "hello")] "user" = none
    ∧ jlookup [("message", JVal.str "hello")] "technician" = none
    ∧ (get_ci_details (.response 200 [("ci", JVal.str "x")])
          = some (jlookupD [("ci", JVal.str "x")] "ci" (JVal.obj [("ci", JVal.str "x")]))
      ∧ get_user_details (.response 200 [("ci", JVal.str "x")])
          = some (jlookupD [("ci", JVal.str "x")] "user" (JVal.obj [("ci", JVal.str "x")]))
      ∧ get_technician_details (.response 200 [("ci", JVal.str "x")])
          = some (jlookupD [("ci", JVal.str "x")] "technician" (JVal.obj [("ci", JVal.str "x")]))
      ∧ get_ci_details (.response 200 [("message", JVal.str "hello")])
          = some (JVal.obj [("message", JVal.str "hello")])
      ∧ get_user_details (.response 200 [("message", JVal.str "hello")])
          = some (JVal.obj [("message", JVal.str "hello")])
      ∧ get_technician_details (.response 200 [("message", JVal.str "hello")])
          = some (JVal.obj [("message", JVal.str "hello")])
      ∧ get_ci_details (.response 404 [("ci", JVal.str "x")]) = none
      ∧ get_user_details (.response 404 [("ci", JVal.str "x")]) = none
      ∧ get_technician_details (.response 404 [("ci", JVal.str "x")]) = none
      ∧ get_ci_details (.response 503 [("ci", JVal.str "x")]) = none
      ∧ get_user_details (.response 503 [("ci", JVal.str "x")]) = none
      ∧ get_technician_details (.response 503 [("ci", JVal.str "x")]) = none
      ∧ get_ci_details (.exception "timed out") = none
      ∧ get_user_details (.exception "timed out") = none
      ∧ get_technician_details (.exception "timed out") = none
      ∧ get_ci_details (.response 503 [("ci", JVal.str "x")])
          = get_ci_details (.response 404 [("ci", JVal.str "x")])
      ∧ get_ci_details (.exception "timed out")
          = get_ci_details (.response 404 [("ci", JVal.str "x")])) :=
  ⟨by decide, rfl, rfl, rfl,
    claim_C4_get_semantics 503 [("ci", JVal.str "x")] [("message", JVal.str "hello")]
      "timed out" (by decide) rfl rfl rfl⟩

/-- C6: a session set up with a truthy technician key sends the
`TECHNICIAN_KEY` header on every request and carries no Basic-auth
credentials; a session set up without one authenticates every request
with Basic auth from the username/password pair and sends no
`TECHNICIAN_KEY` header. -/
theorem claim_C6_auth_mode_selection :
    ∀ (base_url username password k method url : String),
      truthyStr k = true →
      ("TECHNICIAN_KEY", k)
          ∈ (sessionRequest (initSession base_url username password (some k)) method url).headers
      ∧ (sessionRequest (initSession base_url username password (some k)) method url).auth = none
      ∧ (sessionRequest (initSession base_url username password none) method url).auth
          = some (username, password)
      ∧ ∀ v, ("TECHNICIAN_KEY", v)
          ∉ (sessionRequest (initSession base_url username password none) method url).headers := by
  intro base_url username password k method url hk
  refine ⟨?_, ?_, ?_, ?_⟩ <;>
    simp [sessionRequest, initSession, truthyOptStr, hk]

/-- Witness for C6 at concrete connection settings. -/
theorem claim_C6_witness :
    truthyStr "key123" = true
    ∧ (("TECHNICIAN_KEY", "key123")
          ∈ (sessionRequest (initSession "https://sdp.example.com/" "apiuser" "apipass"
              (some "key123")) "PUT" "/api/v3/cmdb/ci/CI001").headers
      ∧ (sessionRequest (initSession "https://sdp.example.com/" "apiuser" "apipass"
              (some "key123")) "PUT" "/api/v3/cmdb/ci/CI001").auth = none
      ∧ (sessionRequest (initSession "https://sdp.example.com/" "apiuser" "apipass" none)
              "PUT" "/api/v3/cmdb/ci/CI001").auth = some ("apiuser", "apipass")
      ∧ ∀ v, ("TECHNICIAN_KEY", v)
          ∉ (sessionRequest (initSession "https://sdp.example.com/" "apiuser" "apipass" none)
              "PUT" "/api/v3/cmdb/ci/CI001").headers) :=
  ⟨by decide,
    claim_C6_auth_mode_selection "https://sdp.example.com/" "apiuser" "apipass" "key123"
      "PUT" "/api/v3/cmdb/ci/CI001" (by decide)⟩

/-- C7: no resource operation propagates an exception.  A transport
failure raises inside every operation's `try:` suite (the `..._body`
value is an `error`), yet every operation converts it — like any
non-success status and any missing required input field — into a plain
boolean-false or absence result. -/
theorem claim_C7_no_exception_propagation :
    ∀ (msg : String) (st1 st2 : Nat) (body : List (String × JVal))
      (itBad : CIUpdateItem) (o : HttpOutcome)
      (cfgBad : UserConfig) (be : ItemBackend),
      st1 ≠ 200 →
      ¬(st2 = 200 ∨ st2 = 201) →
      (truthyOptStr itBad.ci_id = false ∨ optTruthy itBad.updates = false) →
      truthyOptStr cfgBad.user_id = false →
      get_ci_details_body (.exception msg) = Except.error msg
      ∧ update_ci_fields_body (.exception msg) = Except.error msg
      ∧ search_ci_body (.exception msg) = Except.error msg
      ∧ get_user_details_body (.exception msg) = Except.error msg
      ∧ get_technician_details_body (.exception msg) = Except.error msg
      ∧ convert_user_to_technician_body (.exception msg) = Except.error msg
      ∧ update_technician_body (.exception msg) = Except.error msg
      ∧ assign_technician_to_sites_body (.exception msg) = Except.error msg
      ∧ assign_technician_to_groups_body (.exception msg) = Except.error msg
      ∧ assign_technician_roles_body (.exception msg) = Except.error msg
      ∧ get_sites_body (.exception msg) = Except.error msg
      ∧ get_groups_body (.exception msg) = Except.error msg
      ∧ get_roles_body (.exception msg) = Except.error msg
      ∧ search_users_body (.exception msg) = Except.error msg
      ∧ get_ci_details (.exception msg) = none
      ∧ update_ci_fields (.exception msg) = false
      ∧ search_ci (.exception msg) = JVal.arr []
      ∧ get_user_details (.exception msg) = none
      ∧ get_technician_details (.exception msg) = none
      ∧ convert_user_to_technician (.exception msg) = none
      ∧ update_technician (.exception msg) = none
      ∧ assign_technician_to_sites (.exception msg) = false
      ∧ assign_technician_to_groups (.exception msg) = false
      ∧ assign_technician_roles (.exception msg) = false
      ∧ get_sites (.exception msg) = JVal.arr []
      ∧ get_groups (.exception msg) = JVal.arr []
      ∧ get_roles (.exception msg) = JVal.arr []
      ∧ search_users (.exception msg) = JVal.arr []
      ∧ get_ci_details (.response st1 body) = none
      ∧ get_user_details (.response st1 body) = none
      ∧ get_technician_details (.response st1 body) = none
      ∧ search_ci (.response st1 body) = JVal.arr []
      ∧ get_sites (.response st1 body) = JVal.arr []
      ∧ get_groups (.response st1 body) = JVal.arr []
      ∧ get_roles (.response st1 body) = JVal.arr []
      ∧ search_users (.response st1 body) = JVal.arr []
      ∧ update_ci_fields (.response st2 body) = false
      ∧ update_technician (.response st2 body) = some false
      ∧ convert_user_to_technician (.response st2 body) = none
      ∧ assign_technician_to_sites (.response st2 body) = false
      ∧ assign_technician_to_groups (.response st2 body) = false
      ∧ assign_technician_roles (.response st2 body) = false
      ∧ ci_update_step itBad o = (false, [])
      ∧ process_user_to_technician be cfgBad = (false, []) := by
  intro msg st1 st2 body itBad o cfgBad be hst1 hst2 hit hcfg
  refine ⟨rfl, rfl, rfl, rfl, rfl, rfl, rfl, rfl, rfl, rfl, rfl, rfl, rfl, rfl,
    rfl, rfl, rfl, rfl, rfl, rfl, rfl, rfl, rfl, rfl, rfl, rfl, rfl, rfl,
    ?_, ?_, ?_, ?_, ?_, ?_, ?_, ?_, ?_, ?_, ?_, ?_, ?_, ?_, ?_, ?_⟩
  · simp [get_ci_details, get_ci_details_body, pyHandle, hst1]
  · simp [get_user_details, get_user_details_body, pyHandle, hst1]
  · simp [get_technician_details, get_technician_details_body, pyHandle, hst1]
  · simp [search_ci, search_ci_body, pyHandle, hst1]
  · simp [get_sites, get_sites_body, pyHandle, hst1]
  · simp [get_groups, get_groups_body, pyHandle, hst1]
  · simp [get_roles, get_roles_body, pyHandle, hst1]
  · simp [search_users, search_users_body, pyHandle, hst1]
  · simp [update_ci_fields, update_ci_fields_body, pyHandle, hst2]
  · simp [update_technician, update_technician_body, hst2]
  · simp [convert_user_to_technician, convert_user_to_technician_body, pyHandle, hst2]
  · simp [assign_technician_to_sites, assign_technician_to_sites_body, pyHandle, hst2]
  · simp [assign_technician_to_groups, assign_technician_to_groups_body, pyHandle, hst2]
  · simp [assign_technician_roles, assign_technician_roles_body, pyHandle, hst2]
  · rw [ci_update_step, if_pos hit]
  · simp [process_user_to_technician, hcfg]

/-- Witness for C7: a 503 GET status, a 500 update status, an item with
a missing `updates` payload and a conversion item with no `user_id`. -/
theorem claim_C7_witness :
    (503 : Nat) ≠ 200
    ∧ ¬((500 : Nat) = 200 ∨ (500 : Nat) = 201)
    ∧ (truthyOptStr ({ ci_id := some "CI009" } : CIUpdateItem).ci_id = false
        ∨ optTruthy ({ ci_id := some "CI009" } : CIUpdateItem).updates = false)
    ∧ truthyOptStr ({ } : UserConfig).user_id = false
    ∧ (update_ci_fields (.exception "boom") = false
      ∧ update_technician (.exception "boom") = none
      ∧ update_ci_fields (.response 500 []) = false
      ∧ ci_update_step { ci_id := some "CI009" } (.response 200 []) = (false, [])
      ∧ process_user_to_technician c10be { } = (false, [])) := by
  have h := claim_C7_no_exception_propagation "boom" 503 500 []
    { ci_id := some "CI009" } (.response 200 []) { } c10be
    (by decide) (by decide) (by decide) (by decide)
  obtain ⟨-, -, -, -, -, -, -, -, -, -, -, -, -, -,
    -, h16, -, -, -, -, h21, -, -, -, -, -, -, -,
    -, -, -, -, -, -, -, -,
    h37, -, -, -, -, -,
    h43, h44⟩ := h
  exact ⟨by decide, by decide, by decide, by decide, h16, h21, h37, h43, h44⟩

/-- Fixture for the C5 counterexample: a conversion item with a valid
`user_id` but no payload (`technician_data` missing). -/
def c5cfg : UserConfig := { user_id := some "U1" }

/-- Fixture for the C5 counterexample: a backend that accepts the
convert POST. -/
def c5be : ItemBackend :=
  { convert := HttpOutcome.response 200 [("technician", JVal.obj [("id", JVal.str "T1")])]
    sites := HttpOutcome.response 200 []
    groups := HttpOutcome.response 200 []
    roles := HttpOutcome.response 200 [] }

/-- C5 counterexample: the claim says an item missing a required field
— with the id AND the payload both required to be non-empty — is
counted failed without any network call, but a conversion item whose
payload (`technician_data`) is missing still issues the convert call
and is counted successful when the backend accepts it. -/
theorem claim_C5_counterexample :
    c5cfg.technician_data = none
    ∧ process_user_to_technician c5be c5cfg = (true, [SdpCall.convertUser])
    ∧ bulk_process_users_to_technicians [(c5cfg, c5be)]
        = { successful := 1, failed := 0 } := by
  refine ⟨rfl, by decide, by decide⟩

/-- C5 as amended: in the CI runner an item with a missing or empty
`ci_id` or `updates` is counted failed with no network call; in the
conversion runner only `user_id` is required — an item with a missing
or empty `user_id` is counted failed with no network call (a missing
`technician_data` does not block the convert call, see C10). -/
theorem claim_C5_amended_required_fields :
    ∀ (it : CIUpdateItem) (o : HttpOutcome) (xs : List (CIUpdateItem × HttpOutcome))
      (cfg : UserConfig) (be : ItemBackend) (us : List (UserConfig × ItemBackend)),
      (truthyOptStr it.ci_id = false ∨ optTruthy it.updates = false) →
      truthyOptStr cfg.user_id = false →
      ci_update_step it o = (false, [])
      ∧ bulk_update_ci_fields (xs ++ [(it, o)])
          = { successful := (bulk_update_ci_fields xs).successful
              failed := (bulk_update_ci_fields xs).failed + 1 }
      ∧ process_user_to_technician be cfg = (false, [])
      ∧ bulk_process_users_to_technicians (us ++ [(cfg, be)])
          = { successful := (bulk_process_users_to_technicians us).successful
              failed := (bulk_process_users_to_technicians us).failed + 1 } := by
  intro it o xs cfg be us hit hcfg
  have hstep : ci_update_step it o = (false, []) := by
    rw [ci_update_step, if_pos hit]
  have hproc : process_user_to_technician be cfg = (false, []) := by
    simp [process_user_to_technician, hcfg]
  refine ⟨hstep, ?_, hproc, ?_⟩
  · simp [bulk_update_ci_fields_closed, List.countP_append, List.countP_cons, hstep]
  · simp [bulk_process_closed, List.countP_append, List.countP_cons, hproc]

/-- Fixture for the C5 witness: a CI item whose `updates` payload is
missing. -/
def c5it : CIUpdateItem := { ci_id := some "CI002" }

/-- Fixture for the C5 witness: a valid CI item processed before the
invalid one (the spec's example scenario). -/
def c5xs : List (CIUpdateItem × HttpOutcome) :=
  [({ ci_id := some "CI001", updates := some (JVal.obj [("status", JVal.str "Active")]) },
    HttpOutcome.response 200 [])]

/-- Fixture for the C5 witness: a conversion item with no `user_id`. -/
def c5badCfg : UserConfig := { user_id := none }

/-- Witness for the amended C5 at the fixture inputs. -/
theorem claim_C5_witness :
    (truthyOptStr c5it.ci_id = false ∨ optTruthy c5it.updates = false)
    ∧ truthyOptStr c5badCfg.user_id = false
    ∧ (ci_update_step c5it (HttpOutcome.response 200 []) = (false, [])
      ∧ bulk_update_ci_fields (c5xs ++ [(c5it, HttpOutcome.response 200 [])])
          = { successful := (bulk_update_ci_fields c5xs).successful
              failed := (bulk_update_ci_fields c5xs).failed + 1 }
      ∧ process_user_to_technician c5be c5badCfg = (false, [])
      ∧ bulk_process_users_to_technicians ([] ++ [(c5badCfg, c5be)])
          = { successful := (bulk_process_users_to_technicians []).successful
              failed := (bulk_process_users_to_technicians []).failed + 1 }) :=
  ⟨by decide, by decide,
    claim_C5_amended_required_fields c5it (HttpOutcome.response 200 []) c5xs
      c5badCfg c5be [] (by decide) (by decide)⟩

end SdpScript
